import Mathlib

/-!
Shallow embedding of the texel-density tool (`texelGetSet.py`): the density
measurer `getTexelDensity`, the normalizer `set_texel_density` with its scale
formula, and the dialog state (`targetTexelDensity`, the two text fields).
Python floats are modelled as real numbers; the integer arithmetic of the
normalizer path is modelled exactly over the rationals.  Python exceptions
are modelled as an `Except` error result: `NameError` from the measurer's
bare-name calls to the class-scoped distance helpers, `ZeroDivisionError`
from its final averaging division, and `TypeError` on an unset target.
-/

/-- Error outcomes.  The spec's taxonomy names four errors; the code itself
raises Python `NameError` (`pyNameError`, from the bare-name calls to the
class attributes `getDistance3D`/`getDistance2D` in `getTexelDensity`),
`ZeroDivisionError` (modelled as `DegenerateMeshError`, the spec's name for
it) and `TypeError` (`pyTypeError`, when `targetTexelDensity` is still
`None`).  The remaining constructors exist so the spec's claimed failures
are statable. -/
inductive TexelError where
  | NoSelectionError
  | DegenerateMeshError
  | InvalidTargetError
  | RescaleOperationError
  | pyTypeError
  | pyNameError
  deriving DecidableEq, Repr

/-- A UV-space point, as returned by `cmds.polyEditUV(..., q=True, u=True)`. -/
structure UVPoint where
  u : ℝ
  v : ℝ

/-- A world-space point, as returned by `cmds.pointPosition`. -/
structure WorldPoint where
  x : ℝ
  y : ℝ
  z : ℝ

/-- One mesh edge: its two incident vertices (the component conversion
`fromEdge=True, toVertex=True` always yields two) and the resolved UV
coordinate list (`fromEdge=True, toUV=True`, flattened; any length). -/
structure Edge where
  vertA : WorldPoint
  vertB : WorldPoint
  uvs : List UVPoint

/-- A mesh is its edge list (`cmds.polyEvaluate(..., edge=True)` edges,
indexed `0 .. numEdges-1`). -/
structure Mesh where
  edges : List Edge

/-- `getDistance2D` (line 101): `sqrt((a0-b0)^2 + (a1-b1)^2)` on the two
queried UV coordinates.  This is a class attribute of `MyWindow`;
`getTexelDensity` refers to it as a bare name (line 158), which does not
resolve, so the function is never actually reached from the measurement
loop. -/
noncomputable def getDistance2D (a b : UVPoint) : ℝ :=
  Real.sqrt ((a.u - b.u) ^ 2 + (a.v - b.v) ^ 2)

/-- `getDistance3D` (line 115): `sqrt((a0-b0)^2 + (a1-b1)^2 + (a2-b2)^2)`
on the two queried vertex positions.  Also a class attribute of `MyWindow`,
referred to as a bare name at line 148; the reference does not resolve. -/
noncomputable def getDistance3D (a b : WorldPoint) : ℝ :=
  Real.sqrt ((a.x - b.x) ^ 2 + (a.y - b.y) ^ 2 + (a.z - b.z) ^ 2)

/-- Python `round` on a real value: round half to even (banker's rounding),
which is what Python 3's built-in `round` does; away from exact halves it
agrees with ordinary rounding.  (Models the `round` of line 167.) -/
noncomputable def pyRound (x : ℝ) : ℤ :=
  if x - ⌊x⌋ = 1 / 2 then (if ⌊x⌋ % 2 = 0 then ⌊x⌋ else ⌊x⌋ + 1) else round x

/-- The edge loop of `getTexelDensity` (lines 143-164), with the running
`texelDensity` sum and `numInternalEdges` counter as accumulators.
`getDistance3D` and `getDistance2D` are attributes of `class MyWindow`, and
the loop body refers to them as bare names (`getDistance3D(verts)`, line
148); Python 3 resolves a bare name in a method body through the local,
enclosing-function, module and builtin scopes only — never through the
class namespace — and no module-level or builtin binding of these names
exists (the PySide star imports provide neither), so the first iteration of
the loop raises `NameError`.  The `1/edgeLen` division and the
UV-classification statements of lines 149-164 are dead code; the loop
completes only when there is no edge to iterate over. -/
def measureLoop : List Edge → ℝ → ℕ → Except TexelError (ℝ × ℕ)
  | [], texelDensity, numInternalEdges => .ok (texelDensity, numInternalEdges)
  | _ :: _, _, _ => .error .pyNameError

/-- `getTexelDensity` (lines 130-170), up to the final display calls: run
the edge loop, then compute `texelDensity / numInternalEdges` — a
`ZeroDivisionError` (the spec's `DegenerateMeshError`) when no internal
edge was counted — and `round` the average (line 167).  Because the loop
raises `NameError` on its first iteration, the only reachable outcomes are
`pyNameError` (the mesh has at least one edge) and `DegenerateMeshError`
from the `0 / 0` division at line 166 (the mesh has no edges at all); the
`.ok` branch is unreachable. -/
noncomputable def getTexelDensity (m : Mesh) : Except TexelError ℤ :=
  match measureLoop m.edges 0 0 with
  | .error err => .error err
  | .ok (texelDensity, numInternalEdges) =>
    if numInternalEdges = 0 then .error .DegenerateMeshError
    else .ok (pyRound (texelDensity / (numInternalEdges : ℝ)))

/-- The interior-edge test of line 154 (`len(uvs) == 2`), the spec's notion
of an interior edge.  In the program this test is dead code (the loop fails
at line 148 first), but it defines the mesh property the claims quantify
over. -/
def isInterior (e : Edge) : Bool := e.uvs.length == 2

/-- Number of interior edges of a mesh. -/
def interiorCount (m : Mesh) : ℕ := m.edges.countP (fun e => isInterior e)

-- ## Normalizer side (`set_texel_density`, `saveTexelDensity`)

/-- `defaultTextureRes = 2048` as bound in `set_texel_density` (line 92).
The normalizer path is integer/rational arithmetic, modelled exactly. -/
def defaultTextureRes : ℚ := 2048

/-- Line 94: `scaleTarget = texDensity / defaultTextureRes` (Python true
division). -/
def computeScaleFactor (texDensity : ℚ) : ℚ := texDensity / defaultTextureRes

/-- The dialog's mutable state: the stored `targetTexelDensity` (initialized
to `None`, line 71) and the two text fields. -/
structure DialogState where
  targetTexelDensity : Option ℤ
  currentTexelDensityField : String
  setTexelDensityField : String
  deriving DecidableEq, Repr

/-- `saveTexelDensity` (lines 78-83): the user finishes editing the target
text field with the integer `typed` in it; the handler stores
`int(field text)` into `self.targetTexelDensity`. -/
def saveTexelDensity (st : DialogState) (typed : ℤ) : DialogState :=
  { st with setTexelDensityField := toString typed,
            targetTexelDensity := some typed }

/-- One `cmds.unfold(obj, ..., s=scaleTarget)` invocation (line 97). -/
structure UnfoldCall where
  obj : String
  s : ℚ
  deriving DecidableEq, Repr

/-- `set_texel_density` (lines 85-99): read the selection and the stored
target (`None / 2048` raises a Python `TypeError`), compute
`scaleTarget = texDensity / defaultTextureRes`, call `cmds.unfold` with that
scale for each selected object, then set the current-density text field to
`str(targetTexelDensity)`.  The rescale primitive is external; its
invocations are returned as a list. -/
def set_texel_density (sel : List String) (st : DialogState) :
    Except TexelError (DialogState × List UnfoldCall) :=
  match st.targetTexelDensity with
  | none => .error .pyTypeError
  | some texDensity =>
    let scaleTarget := computeScaleFactor (texDensity : ℚ)
    .ok ({ st with currentTexelDensityField := toString texDensity },
         sel.map (fun obj => { obj := obj, s := scaleTarget }))

-- ## Concrete meshes for the spec scenarios

/-- The spec's scenario edge: world length 1 (along the x-axis), interior
(two resolved UVs) with UV length 1/10. -/
noncomputable def edgeScenario : Edge :=
  { vertA := ⟨0, 0, 0⟩, vertB := ⟨1, 0, 0⟩, uvs := [⟨0, 0⟩, ⟨1/10, 0⟩] }

/-- A boundary/seam edge (a single resolved UV) of world length 1. -/
noncomputable def edgeBoundary : Edge :=
  { vertA := ⟨0, 0, 0⟩, vertB := ⟨0, 1, 0⟩, uvs := [⟨0, 0⟩] }

/-- A degenerate boundary/seam edge: equal endpoints (world length 0) and no
resolved UVs. -/
noncomputable def edgeZeroBoundary : Edge :=
  { vertA := ⟨0, 0, 0⟩, vertB := ⟨0, 0, 0⟩, uvs := [] }

/-- The spec's single-interior-edge scenario mesh. -/
noncomputable def meshScenario : Mesh := ⟨[edgeScenario]⟩

/-- One interior edge plus one (non-degenerate) boundary edge. -/
noncomputable def meshMixed : Mesh := ⟨[edgeScenario, edgeBoundary]⟩

/-- One good interior edge plus one zero-length boundary edge. -/
noncomputable def meshSeamZero : Mesh := ⟨[edgeScenario, edgeZeroBoundary]⟩

/-- A mesh whose single edge is a boundary/seam edge (zero interior edges,
one edge). -/
noncomputable def meshBoundaryOnly : Mesh := ⟨[edgeBoundary]⟩

/-- A mesh with no edges at all. -/
def meshEmpty : Mesh := ⟨[]⟩

-- ## Claims

/-- C1 (code bug): the claim states the intended measurement formula, but
the code cannot produce it: `getDistance3D` is a class attribute called as
a bare name at line 148, so on the spec's own scenario mesh — one interior
edge with UV length 0.1 and world length 1.0, where the claim promises
`round(2048 * 0.1 / 1.0) = 205` — `getTexelDensity` raises `NameError` on
the first edge instead of returning 205. -/
theorem claim_C1 : getTexelDensity meshScenario = .error .pyNameError := rfl

/-- C3 (amended): a mesh with zero interior edges always makes
`getTexelDensity` fail — no default value is ever produced: with no edges
at all the loop completes with count 0 and the final division by the zero
interior-edge count fails (`ZeroDivisionError`, the spec's
`DegenerateMeshError`); with at least one edge the loop fails first, with
`NameError` from the bare-name call to the class-scoped distance helper at
line 148. -/
theorem claim_C3 (m : Mesh) (_h : interiorCount m = 0) :
    (m.edges = [] → getTexelDensity m = .error .DegenerateMeshError) ∧
    (m.edges ≠ [] → getTexelDensity m = .error .pyNameError) := by
  constructor
  · intro hnil
    unfold getTexelDensity
    rw [hnil]
    rfl
  · intro hne
    obtain ⟨e, rest, hcons⟩ := List.exists_cons_of_ne_nil hne
    unfold getTexelDensity
    rw [hcons]
    rfl

/-- C3 witness: the boundary-only mesh (zero interior edges, one edge)
fails with the `NameError`; the edge-less mesh fails with the
zero-interior-count division. -/
theorem claim_C3_witness :
    interiorCount meshBoundaryOnly = 0 ∧
    getTexelDensity meshBoundaryOnly = .error .pyNameError ∧
    getTexelDensity meshEmpty = .error .DegenerateMeshError :=
  ⟨rfl, (claim_C3 meshBoundaryOnly rfl).2 (by simp [meshBoundaryOnly]),
   (claim_C3 meshEmpty rfl).1 rfl⟩

/-- C3 counterexample: on a mesh with zero interior edges but at least one
edge, the failure is not the claimed `DegenerateMeshError`: the bare-name
call `getDistance3D(verts)` at line 148 raises `NameError` on the first
edge, before the division by the zero interior-edge count is ever
reached. -/
theorem claim_C3_counterexample :
    interiorCount meshBoundaryOnly = 0 ∧
    getTexelDensity meshBoundaryOnly = .error .pyNameError ∧
    (.error .pyNameError : Except TexelError ℤ) ≠ .error .DegenerateMeshError := by
  refine ⟨rfl, rfl, ?_⟩
  simp

/-- C4 (code bug): the claim's success guarantee is unachievable: for every
mesh with at least one edge — in particular every mesh with at least one
interior edge — `getTexelDensity` raises `NameError` at line 148 (bare-name
call to the class attribute `getDistance3D`) on the first loop iteration,
so it never returns an integer at all, and the claimed tolerance of
zero-length boundary/seam edges is moot. -/
theorem claim_C4 (m : Mesh) (h : m.edges ≠ []) :
    getTexelDensity m = .error .pyNameError := by
  obtain ⟨e, rest, hcons⟩ := List.exists_cons_of_ne_nil h
  unfold getTexelDensity
  rw [hcons]
  rfl

/-- C4 witness: `meshSeamZero` satisfies the claim's hypotheses (one
healthy interior edge; the zero-length edge is boundary/seam) yet the
measurement fails with `NameError`. -/
theorem claim_C4_witness :
    meshSeamZero.edges ≠ [] ∧
    getTexelDensity meshSeamZero = .error .pyNameError :=
  ⟨by simp [meshSeamZero], claim_C4 meshSeamZero (by simp [meshSeamZero])⟩

/-- C6 (code bug): the skip/count classification the claim describes (lines
154-164: boundary/seam edges skipped and uncounted, interior edges summed
and counted) is dead code: the loop raises `NameError` at line 148 before
the UV-set-size test on every edge, so on a mesh with one interior and one
boundary edge the loop neither counts nor sums anything — it fails on its
first iteration. -/
theorem claim_C6 : measureLoop meshMixed.edges 0 0 = .error .pyNameError := rfl

/-- Evaluation of `set_texel_density` when a target is stored. -/
theorem set_texel_density_eq (sel : List String) (st : DialogState) (t : ℤ)
    (h : st.targetTexelDensity = some t) :
    set_texel_density sel st =
      .ok ({ st with currentTexelDensityField := toString t },
           sel.map (fun obj => ⟨obj, (t : ℚ) / 2048⟩)) := by
  unfold set_texel_density
  rw [h]
  rfl

/-- C2: for every positive target density the scale factor is the target
divided by the reference resolution 2048; in particular
`computeScaleFactor 1024 = 0.5`. -/
theorem claim_C2 :
    (∀ t : ℚ, 0 < t → computeScaleFactor t = t / 2048) ∧
    computeScaleFactor 1024 = 1 / 2 := by
  constructor
  · intro t _
    rfl
  · norm_num [computeScaleFactor, defaultTextureRes]

/-- C2 witness: instantiation at the positive target 7. -/
theorem claim_C2_witness : (0:ℚ) < 7 ∧ computeScaleFactor 7 = 7 / 2048 :=
  ⟨by norm_num, claim_C2.1 7 (by norm_num)⟩

/-- C5 counterexample: there is no positivity validation anywhere in the
code: `computeScaleFactor 0` and `computeScaleFactor (-5)` return scale
factors instead of failing, and with a stored target of 0 the scale 0 is
passed on to the rescale primitive for the selected object. -/
theorem claim_C5_counterexample :
    computeScaleFactor 0 = 0 ∧
    computeScaleFactor (-5) = -5 / 2048 ∧
    set_texel_density ["pPlane1"] ⟨some 0, "", "0"⟩ =
      .ok (⟨some 0, "0", "0"⟩, [⟨"pPlane1", 0⟩]) := by
  refine ⟨by norm_num [computeScaleFactor, defaultTextureRes], rfl, ?_⟩
  rw [set_texel_density_eq ["pPlane1"] ⟨some 0, "", "0"⟩ 0 rfl]
  refine congrArg Except.ok (Prod.ext ?_ ?_)
  · decide
  · simp only [List.map]
    norm_num

/-- C5 (amended): for every non-positive target density the code does not
fail: `computeScaleFactor` still returns `t / 2048` and `set_texel_density`
passes that scale to the rescale primitive for every selected object; no
`InvalidTargetError` is raised anywhere. -/
theorem claim_C5 (t : ℤ) (_ht : t ≤ 0) (st : DialogState) (sel : List String)
    (h : st.targetTexelDensity = some t) :
    computeScaleFactor (t : ℚ) = (t : ℚ) / 2048 ∧
    set_texel_density sel st =
      .ok ({ st with currentTexelDensityField := toString t },
           sel.map (fun obj => ⟨obj, (t : ℚ) / 2048⟩)) :=
  ⟨rfl, set_texel_density_eq sel st t h⟩

/-- C5 witness: target -5 on one selected object. -/
theorem claim_C5_witness :
    computeScaleFactor ((-5 : ℤ) : ℚ) = ((-5 : ℤ) : ℚ) / 2048 ∧
    set_texel_density ["pCube1"] ⟨some (-5), "", "-5"⟩ =
      .ok (⟨some (-5), "-5", "-5"⟩, [⟨"pCube1", ((-5 : ℤ) : ℚ) / 2048⟩]) := by
  have h := claim_C5 (-5) (by norm_num) ⟨some (-5), "", "-5"⟩ ["pCube1"] rfl
  refine ⟨h.1, ?_⟩
  rw [h.2]
  rfl

/-- C7 counterexample: with an empty selection and stored target 512,
`set_texel_density` completes successfully — no `NoSelectionError` — and
still updates the reported current density field to "512". -/
theorem claim_C7_counterexample :
    set_texel_density [] ⟨some 512, "", "512"⟩ =
      .ok (⟨some 512, "512", "512"⟩, []) := by
  rw [set_texel_density_eq [] ⟨some 512, "", "512"⟩ 512 rfl]
  refine congrArg Except.ok (Prod.ext ?_ rfl)
  decide

/-- C7 (amended): when no mesh is selected the normalize operation does not
fail with `NoSelectionError`: it invokes the rescale primitive zero times
but completes and updates the reported density to the stored target. -/
theorem claim_C7 (st : DialogState) (t : ℤ)
    (h : st.targetTexelDensity = some t) :
    set_texel_density [] st =
      .ok ({ st with currentTexelDensityField := toString t }, []) := by
  unfold set_texel_density
  rw [h]
  rfl

/-- C7 witness: stored target 256, nothing selected. -/
theorem claim_C7_witness :
    set_texel_density [] ⟨some 256, "", "256"⟩ =
      .ok (⟨some 256, "256", "256"⟩, []) := by
  have h := claim_C7 ⟨some 256, "", "256"⟩ 256 rfl
  rw [h]
  refine congrArg Except.ok (Prod.ext ?_ rfl)
  decide

/-- C8: the scale factor is linear on positive targets and maps the
reference resolution itself to 1. -/
theorem claim_C8 :
    (∀ t : ℚ, 0 < t → computeScaleFactor (2 * t) = 2 * computeScaleFactor t) ∧
    computeScaleFactor defaultTextureRes = 1 := by
  constructor
  · intro t _
    unfold computeScaleFactor
    ring
  · norm_num [computeScaleFactor, defaultTextureRes]

/-- C8 witness: linearity instantiated at t = 3. -/
theorem claim_C8_witness :
    (0:ℚ) < 3 ∧ computeScaleFactor (2 * 3) = 2 * computeScaleFactor 3 :=
  ⟨by norm_num, claim_C8.1 3 (by norm_num)⟩

/-- C9 counterexample: save target 512, run a normalize request to
completion; the stored target survives (the dialog state still holds 512),
and the next normalize request, which supplies no target of its own, reuses
it — `cmds.unfold` is called with scale 512/2048 = 1/4 again. -/
theorem claim_C9_counterexample :
    set_texel_density ["a"] (saveTexelDensity ⟨none, "", ""⟩ 512) =
      .ok (⟨some 512, "512", "512"⟩, [⟨"a", 1 / 4⟩]) ∧
    set_texel_density ["b"] ⟨some 512, "512", "512"⟩ =
      .ok (⟨some 512, "512", "512"⟩, [⟨"b", 1 / 4⟩]) := by
  constructor
  · rw [show saveTexelDensity ⟨none, "", ""⟩ 512 = ⟨some 512, "", "512"⟩ from rfl,
      set_texel_density_eq ["a"] ⟨some 512, "", "512"⟩ 512 rfl]
    refine congrArg Except.ok (Prod.ext ?_ ?_)
    · decide
    · simp only [List.map]
      norm_num
  · rw [set_texel_density_eq ["b"] ⟨some 512, "512", "512"⟩ 512 rfl]
    refine congrArg Except.ok (Prod.ext ?_ ?_)
    · decide
    · simp only [List.map]
      norm_num

/-- C9 (amended): the stored target is retained between requests: a
completed normalize request leaves `targetTexelDensity` unchanged, so
repeating the request without saving a new target reuses the previous one
and produces the same rescale calls. -/
theorem claim_C9 (sel : List String) (st st2 : DialogState)
    (calls : List UnfoldCall) (t : ℤ)
    (h : st.targetTexelDensity = some t)
    (hok : set_texel_density sel st = .ok (st2, calls)) :
    st2.targetTexelDensity = some t ∧
    set_texel_density sel st2 = .ok (st2, calls) := by
  rw [set_texel_density_eq sel st t h] at hok
  simp only [Except.ok.injEq, Prod.mk.injEq] at hok
  obtain ⟨hst, hcalls⟩ := hok
  have ht2 : st2.targetTexelDensity = some t := by
    rw [← hst]
    exact h
  refine ⟨ht2, ?_⟩
  rw [set_texel_density_eq sel st2 t ht2, ← hst, ← hcalls]

/-- C9 witness: after a first normalize with target 64 the state still holds
64 and the repeated request emits the same call with scale 1/32. -/
theorem claim_C9_witness :
    DialogState.targetTexelDensity ⟨some 64, "64", "64"⟩ = some 64 ∧
    set_texel_density ["m"] ⟨some 64, "64", "64"⟩ =
      .ok (⟨some 64, "64", "64"⟩, [⟨"m", 1 / 32⟩]) :=
  claim_C9 ["m"] ⟨some 64, "", "64"⟩ ⟨some 64, "64", "64"⟩ [⟨"m", 1 / 32⟩] 64
    rfl (by
      rw [set_texel_density_eq ["m"] ⟨some 64, "", "64"⟩ 64 rfl]
      refine congrArg Except.ok (Prod.ext ?_ ?_)
      · decide
      · simp only [List.map]
        norm_num)

/-- C10: after a successful normalize the reported current density is
exactly the caller-supplied target — line 99 writes
`str(targetTexelDensity)` into the display field for every selection and
every stored target; the measurement routine plays no part in the value. -/
theorem claim_C10 (sel : List String) (st : DialogState) (t : ℤ)
    (h : st.targetTexelDensity = some t) :
    ∃ calls, set_texel_density sel st =
      .ok ({ st with currentTexelDensityField := toString t }, calls) :=
  ⟨_, set_texel_density_eq sel st t h⟩

/-- C10 witness: target 300 is reported verbatim. -/
theorem claim_C10_witness :
    ∃ calls, set_texel_density ["pSphere1"] ⟨some 300, "", "300"⟩ =
      .ok (⟨some 300, "300", "300"⟩, calls) := by
  obtain ⟨calls, hc⟩ := claim_C10 ["pSphere1"] ⟨some 300, "", "300"⟩ 300 rfl
  refine ⟨calls, ?_⟩
  rw [hc]
  refine congrArg Except.ok (Prod.ext ?_ rfl)
  show (⟨some 300, toString (300:ℤ), "300"⟩ : DialogState) = ⟨some 300, "300", "300"⟩
  decide
